import Mathlib

/-!
Shallow embedding of the sentinel-edge pipeline core: the per-message logic
of the four worker loops (src/application/{ocr,color_detection,logo_detection,
violation_detection}), the result aggregator
(src/application/aggregator/modules/aggregator_engine.py), the static worker
tables (src/application/db_redis/sentinel_redis_config.py) and the
orchestrator's exit-code behaviour (src/application/orchestrator.py).

Python values read from a message field map are modelled as `Option String`
(`none` is Python's `None`); Python truthiness, `x or y`, `str.strip()`,
`str.split(sep, 1)` and `int(str)` are modelled explicitly below.
-/

namespace Sentinel

/-- Python truthiness of an optional string: `None` and the empty string are
falsy, every other string is truthy. -/
def optTruthy : Option String → Bool
  | none => false
  | some s => s ≠ ""

/-- Python `a or b` on optional strings: returns `a` when `a` is truthy,
otherwise returns `b` unchanged (even when `b` is itself falsy). -/
def pyOr (a b : Option String) : Option String :=
  if optTruthy a then a else b

/-- Whitespace characters stripped by Python's default `str.strip()`
(ASCII subset, which covers every string this development evaluates). -/
def isPyWs (c : Char) : Bool :=
  c = ' ' || c = '\t' || c = '\n' || c = '\r' || c = '\x0b' || c = '\x0c'

/-- Python `str.strip()` on a character list: drop whitespace from both ends. -/
def pystripList (l : List Char) : List Char :=
  ((l.dropWhile isPyWs).reverse.dropWhile isPyWs).reverse

/-- Python `str.strip()`. -/
def pystrip (s : String) : String :=
  ⟨pystripList s.toList⟩

/-- Digit run of a Python base-10 integer literal, continuing after a first
accepted digit: a single underscore may appear between two digits, as in
`int("1_000")`; a trailing, doubled or misplaced underscore is rejected. -/
def digitsAux : Nat → List Char → Option Nat
  | acc, [] => some acc
  | acc, '_' :: rest =>
    match rest with
    | [] => none
    | c :: rest2 =>
      if c.isDigit then digitsAux (acc * 10 + (c.toNat - 48)) rest2 else none
  | acc, c :: rest =>
    if c.isDigit then digitsAux (acc * 10 + (c.toNat - 48)) rest else none

/-- Digit run of a Python integer literal: must start with a digit. -/
def digitsStart : List Char → Option Nat
  | [] => none
  | c :: rest => if c.isDigit then digitsAux (c.toNat - 48) rest else none

/-- Python `int(s)` for a string argument: strip whitespace, optional sign,
then a non-empty digit run (underscores allowed between digits);
`none` models the `ValueError` raised on anything else. -/
def pyIntParse (s : String) : Option Int :=
  match pystripList s.toList with
  | '+' :: rest => (digitsStart rest).map (fun n => (n : Int))
  | '-' :: rest => (digitsStart rest).map (fun n => -(n : Int))
  | rest => (digitsStart rest).map (fun n => (n : Int))

/-! Static worker tables, from
src/application/db_redis/sentinel_redis_config.py lines 36-54. -/

/-- WORKER_TYPES table (sentinel_redis_config.py lines 36-41), as the lookup
`WORKER_TYPES.get(worker_type, [])` used by `should_worker_process`:
an unknown worker maps to the empty list. -/
def WORKER_TYPES (worker_type : String) : List String :=
  if worker_type = "ocr" then ["car", "bus", "motorcycle", "truck", "auto"]
  else if worker_type = "color" then ["car"]
  else if worker_type = "logo" then ["car"]
  else if worker_type = "violation" then ["motorcycle"]
  else []

/-- get_expected_workers (sentinel_redis_config.py lines 43-50). -/
def get_expected_workers (vehicle_type : String) : List String :=
  if vehicle_type = "car" then ["ocr", "color", "logo"]
  else if vehicle_type = "motorcycle" then ["ocr", "violation"]
  else ["ocr"]

/-- should_worker_process (sentinel_redis_config.py lines 52-54):
membership of the vehicle type in the worker's WORKER_TYPES row. -/
def should_worker_process (worker_type vehicle_type : String) : Bool :=
  decide (vehicle_type ∈ WORKER_TYPES worker_type)

/-- The relevance check as applied to a message field value: the workers call
should_worker_process on fields.get("vehicle_type"), which may be None;
in Python `None in [...]` is False for the string lists of WORKER_TYPES. -/
def shouldProcessOpt (worker_type : String) : Option String → Bool
  | none => false
  | some v => should_worker_process worker_type v

/-! Color-payload parsing, from aggregator_engine.py lines 25-30. -/

/-- Split a character list at the first bar, Python `s.split(sep, 1)` with one
maximal split: the part before the first bar and everything after it;
`none` when the list has no bar. -/
def splitBar : List Char → Option (List Char × List Char)
  | [] => none
  | c :: rest =>
    if c = '|' then some ([], rest)
    else
      match splitBar rest with
      | none => none
      | some (a, b) => some (c :: a, b)

/-- parse_color_result (aggregator_engine.py lines 25-30). The argument is
the value stored in the results map, which may be Python None (a message
without a result field); `'|' in None` raises TypeError, modelled as
`.error ()`. With a bar, split once at the first bar and strip both halves;
without one, the whole stripped string is the name and the hex defaults. -/
def parse_color_result : Option String → Except Unit (String × String)
  | none => .error ()
  | some s =>
    match splitBar s.toList with
    | some (a, b) => .ok (⟨pystripList a⟩, ⟨pystripList b⟩)
    | none => .ok (pystrip s, "#000000")

/-! Worker runtime: per-message handling of the four worker loops. Each
worker reads a Job message, checks relevance, runs its injected processing
function inside try/except, publishes a Result to the Result Bus and (in most
branches) acks the Job message under its group. The processing outcome is a
parameter: `.ok` for a normal return, `.error e` for a raised exception with
message `e`. -/

/-- A Job message as the workers read it from the Job Bus: field-map lookups
with `fields.get`, so every field is an optional string. -/
structure JobMsg where
  job_id : Option String
  vehicle_id : Option String
  vehicle_type : Option String
  frame_path : Option String
  plate_path : Option String
  deriving DecidableEq, Repr

/-- A Result message as published to the Result Bus by `r.xadd`. Fields a
worker's xadd dict does not mention stay `none`. -/
structure ResultMsg where
  job_id : Option String
  vehicle_id : Option String := none
  worker : String
  result : Option String
  status : String
  error : Option String := none
  frame_path : Option String := none
  plate_path : Option String := none
  logo_path : Option String := none
  deriving DecidableEq, Repr

/-- Observable bus effects of handling one Job message: publishing a Result
(xadd on the Result Bus) and acknowledging the Job message (xack under the
worker's group), in program order. -/
inductive WorkerEffect where
  | publish (r : ResultMsg)
  | ack
  deriving DecidableEq, Repr

/-- ocr_worker message handling (ocr_worker.py lines 186-229): relevant jobs
run process_ocr; a normal return publishes an ok Result echoing both paths and
acks; an exception publishes an error Result with payload N/A (no vehicle_id
field in that xadd) and acks; irrelevant jobs are acked without processing. -/
def ocrHandleMessage (proc : Except String String) (m : JobMsg) : List WorkerEffect :=
  if shouldProcessOpt "ocr" m.vehicle_type then
    match proc with
    | .ok result =>
      [.publish { job_id := m.job_id, vehicle_id := m.vehicle_id, worker := "ocr",
                  result := some result, status := "ok",
                  frame_path := m.frame_path, plate_path := m.plate_path },
       .ack]
    | .error e =>
      [.publish { job_id := m.job_id, worker := "ocr",
                  result := some "N/A", status := "error", error := some e,
                  frame_path := m.frame_path, plate_path := m.plate_path },
       .ack]
  else [.ack]

/-- The color worker's message loop (color_worker.py lines 232-234) binds only
job_id, vehicle_type and frame_path from the message fields; no local named
plate_path is ever assigned, yet line 252 reads plate_path when building the
success xadd dict. This flag records that the name is unbound there, so that
evaluating it raises NameError inside the try block. -/
def colorLoopBindsPlatePath : Bool := false

/-- The message of Python's NameError for the unbound plate_path, as str(e)
lands in the error field of the published Result. -/
def colorNameErrorMsg : String := "name 'plate_path' is not defined"

/-- The error-branch Result of the color worker (color_worker.py lines
258-265): payload unknown|#000000, no path fields. -/
def colorErrorResult (m : JobMsg) (e : String) : ResultMsg :=
  { job_id := m.job_id, vehicle_id := m.vehicle_id, worker := "color",
    result := some "unknown|#000000", status := "error", error := some e }

/-- color_worker message handling (color_worker.py lines 232-269): for a
relevant job whose process_color returns (name, hex), the success branch
builds the xadd dict of lines 245-253, which evaluates the unbound name
plate_path and raises NameError, so control lands in the except branch of
lines 256-266: the worker publishes the error Result and acks. A raising
process_color likewise publishes the error Result and acks. Irrelevant jobs
are acked without processing. -/
def colorHandleMessage (proc : Except String (String × String)) (m : JobMsg) :
    List WorkerEffect :=
  if shouldProcessOpt "color" m.vehicle_type then
    match proc with
    | .ok (name, hex) =>
      if colorLoopBindsPlatePath then
        [.publish { job_id := m.job_id, vehicle_id := m.vehicle_id, worker := "color",
                    result := some (name ++ "|" ++ hex), status := "ok",
                    frame_path := m.frame_path },
         .ack]
      else
        [.publish (colorErrorResult m colorNameErrorMsg), .ack]
    | .error e =>
      [.publish (colorErrorResult m e), .ack]
  else [.ack]

/-- logo_worker message handling (logo_worker.py lines 151-192): a normal
return of process_logo publishes an ok Result (logo_path defaults to N/A when
falsy, Python `logo_path if logo_path else "N/A"`) and acks; an exception
publishes the error Result of lines 181-189 and the branch contains no xack,
so the Job message is left unacknowledged; irrelevant jobs are acked. -/
def logoHandleMessage (proc : Except String (String × Option String)) (m : JobMsg) :
    List WorkerEffect :=
  if shouldProcessOpt "logo" m.vehicle_type then
    match proc with
    | .ok (make, lp) =>
      [.publish { job_id := m.job_id, vehicle_id := m.vehicle_id, worker := "logo",
                  result := some make, status := "ok",
                  logo_path := if optTruthy lp then lp else some "N/A",
                  frame_path := m.frame_path, plate_path := m.plate_path },
       .ack]
    | .error e =>
      [.publish { job_id := m.job_id, vehicle_id := m.vehicle_id, worker := "logo",
                  result := some "Unknown", status := "error", error := some e,
                  logo_path := some "N/A" }]
  else [.ack]

/-- violation_worker message handling (violation_worker.py lines 120-161):
a normal return of get_violation_code publishes an ok Result with the code as
string and acks; an exception publishes the error Result of lines 151-157
(payload 0, no error or path fields) and acks; irrelevant jobs are acked. -/
def violationHandleMessage (proc : Except String Int) (m : JobMsg) :
    List WorkerEffect :=
  if shouldProcessOpt "violation" m.vehicle_type then
    match proc with
    | .ok code =>
      [.publish { job_id := m.job_id, vehicle_id := m.vehicle_id, worker := "violation",
                  result := some (toString code), status := "ok",
                  frame_path := m.frame_path, plate_path := m.plate_path },
       .ack]
    | .error _ =>
      [.publish { job_id := m.job_id, vehicle_id := m.vehicle_id, worker := "violation",
                  result := some "0", status := "error" },
       .ack]
  else [.ack]

/-! Result Aggregator: ResultAggregator.process_results
(aggregator_engine.py lines 80-149), embedded as a step function over the
in-memory pending_jobs table. The uploader report_to_central is a parameter
returning the boolean the code branches on; the wall clock used for the
timestamp default is the parameter now. -/

/-- A Result message as the aggregator decodes it (aggregator_engine.py lines
94-101): every field lookup is `f.get`, hence optional. msg_id identifies the
bus entry for acknowledgement. -/
structure AggMsg where
  msg_id : Nat
  job_id : Option String := none
  worker : Option String := none
  result : Option String := none
  vehicle_id : Option String := none
  frame_path : Option String := none
  keyframe_path : Option String := none
  plate_path : Option String := none
  timestamp : Option String := none
  deriving DecidableEq, Repr

/-- One pending_jobs entry (aggregator_engine.py lines 107-114). The results
dict is keyed by the worker field of each message, which can be None, so keys
and values are both optional strings; the assoc list keeps Python dict
insertion order with unique keys. -/
structure PendingJob where
  results : List (Option String × Option String)
  vehicle_id : Option String
  frame_path : Option String
  plate_path : Option String
  timestamp : Option String
  deriving DecidableEq, Repr

/-- The job_data record built on completion (aggregator_engine.py lines
131-140), the CompletedVehicleRecord handed to report_to_central. Values
fetched with res.get keep their optional nature (a worker entry whose result
field was missing stores None). -/
structure JobData where
  vehicle_id : Option String
  vehicle_type : String
  vehicle_number : Option String
  color : String
  color_hex : String
  model : Option String
  violation_type : Int
  timestamp : Option String
  deriving DecidableEq, Repr

/-- The pending_jobs table, keyed by the (truthy) job_id string. -/
abbrev AggState : Type := List (String × PendingJob)

/-- Lookup in the results dict of a pending entry. -/
def resGet? : List (Option String × Option String) → Option String →
    Option (Option String)
  | [], _ => none
  | (k, v) :: rest, key => if k = key then some v else resGet? rest key

/-- Python dict assignment on the results dict: replace the value in place
when the key exists, append the pair otherwise. -/
def resSet : List (Option String × Option String) → Option String →
    Option String → List (Option String × Option String)
  | [], key, v => [(key, v)]
  | (k, w) :: rest, key, v =>
    if k = key then (key, v) :: rest else (k, w) :: resSet rest key v

/-- Lookup in the pending_jobs table. -/
def stGet? : AggState → String → Option PendingJob
  | [], _ => none
  | (k, v) :: rest, key => if k = key then some v else stGet? rest key

/-- Python dict assignment on the pending_jobs table. -/
def stSet : AggState → String → PendingJob → AggState
  | [], key, pj => [(key, pj)]
  | (k, w) :: rest, key, pj =>
    if k = key then (key, pj) :: rest else (k, w) :: stSet rest key pj

/-- Python `del` on the pending_jobs table. -/
def stErase (st : AggState) (key : String) : AggState :=
  st.filter (fun e => e.1 ≠ key)

/-- Fresh pending entry for a first-seen job_id (aggregator_engine.py lines
107-114): the frame path falls back from frame_path to keyframe_path with
Python `or`, and the timestamp falls back to the current wall clock. -/
def newEntry (now : String) (m : AggMsg) : PendingJob :=
  { results := [],
    vehicle_id := m.vehicle_id,
    frame_path := pyOr m.frame_path m.keyframe_path,
    plate_path := m.plate_path,
    timestamp := pyOr m.timestamp (some now) }

/-- Path refresh from a later message (aggregator_engine.py lines 117-121):
each path overwrites the stored one only when the incoming value is truthy. -/
def refreshPaths (m : AggMsg) (pj : PendingJob) : PendingJob :=
  let cp := pyOr m.frame_path m.keyframe_path
  let pj1 := if optTruthy cp then { pj with frame_path := cp } else pj
  if optTruthy m.plate_path then { pj1 with plate_path := m.plate_path } else pj1

/-- State mutation of one message before the completion test
(aggregator_engine.py lines 107-123): create the entry when absent, refresh
paths, merge the worker's result. This is the entry as it stands when the
completion test of line 127 reads it. -/
def mergedEntry (now : String) (st : AggState) (j : String) (m : AggMsg) :
    PendingJob :=
  let pj0 := match stGet? st j with
    | some pj => pj
    | none => newEntry now m
  let pj1 := refreshPaths m pj0
  { pj1 with results := resSet pj1.results m.worker m.result }

/-- Characters before the first underscore. -/
def takeUntilUnderscore : List Char → List Char
  | [] => []
  | c :: rest => if c = '_' then [] else c :: takeUntilUnderscore rest

/-- Python job_id.split(underscore)[0] (aggregator_engine.py line 124): the
leading underscore-separated segment, the whole string when it has no
underscore. -/
def leadingSegment (s : String) : String :=
  ⟨takeUntilUnderscore s.toList⟩

/-- Completion test (aggregator_engine.py line 127): the key set of the
results dict is a superset of the expected worker list, i.e. every expected
worker name appears among the keys. -/
def completionFires (pj : PendingJob) (expected : List String) : Bool :=
  expected.all (fun w => (resGet? pj.results (some w)).isSome)

/-- Conversion of the stored violation payload (aggregator_engine.py line
138, `int(res.get("violation", 0))`): an absent key uses the integer default
0; a stored None raises TypeError; a stored string goes through int(). -/
def violationInt : Option (Option String) → Except Unit Int
  | none => .ok 0
  | some none => .error ()
  | some (some s) =>
    match pyIntParse s with
    | some n => .ok n
    | none => .error ()

/-- res.get with a string default (stored values may still be None). -/
def resGetD (res : List (Option String × Option String)) (key : String)
    (dflt : Option String) : Option String :=
  match resGet? res (some key) with
  | some v => v
  | none => dflt

/-- Building job_data on completion (aggregator_engine.py lines 129-140):
parse the color payload first (line 129), then construct the dict, whose
violation_type entry runs int(); either step may raise, aborting the batch. -/
def buildRecord (vt : String) (pj : PendingJob) : Except Unit JobData :=
  match parse_color_result (resGetD pj.results "color" (some "unknown|#000000")) with
  | .error _ => .error ()
  | .ok (cName, cHex) =>
    match violationInt (resGet? pj.results (some "violation")) with
    | .error _ => .error ()
    | .ok vCode =>
      .ok { vehicle_id := pj.vehicle_id,
            vehicle_type := vt,
            vehicle_number := resGetD pj.results "ocr" (some "N/A"),
            color := cName,
            color_hex := cHex,
            model := resGetD pj.results "logo" (some "Unknown"),
            violation_type := vCode,
            timestamp := pj.timestamp }

/-- Outcome of processing one Result message: a normal step carries the new
table, whether the message was acked, and the record whose upload was
attempted (if the completion test fired); a raised exception carries the
table as already mutated, since the merge of lines 107-123 precedes the
raising expressions. -/
inductive StepRes where
  | ok (st : AggState) (acked : Bool) (emitted : Option JobData)
  | err (st : AggState)
  deriving DecidableEq, Repr

/-- One iteration of the inner message loop (aggregator_engine.py lines
94-145). A falsy job_id skips the message. Otherwise the entry is upserted;
the vehicle type is the leading underscore-separated segment of the job_id;
when the completion test fires, job_data is built (which may raise) and the
upload attempted: on success the message is acked and the entry deleted, on
failure neither happens. -/
def processMessage (upload : JobData → Option String → Option String → Bool)
    (now : String) (st : AggState) (m : AggMsg) : StepRes :=
  match m.job_id with
  | none => .ok st false none
  | some j =>
    if j = "" then .ok st false none
    else
      let pj := mergedEntry now st j m
      let st1 := stSet st j pj
      let vt := leadingSegment j
      if completionFires pj (get_expected_workers vt) then
        match buildRecord vt pj with
        | .error _ => .err st1
        | .ok rec =>
          if upload rec pj.frame_path pj.plate_path then
            .ok (stErase st1 j) true (some rec)
          else
            .ok st1 false (some rec)
      else .ok st1 false none

/-- What happened to one message of a batch: whether it was acked, and the
record whose upload was attempted when its arrival completed a job. -/
structure BatchEvent where
  msg_id : Nat
  acked : Bool
  emitted : Option JobData
  deriving DecidableEq, Repr

/-- Processing of one delivered batch (the nested for loops of
aggregator_engine.py lines 93-145, inside the try of line 87): messages are
handled in order; a raised exception jumps to the except handler of line 147,
so the remaining messages of the batch are dropped with no event recorded for
the raising message. -/
def processBatch (upload : JobData → Option String → Option String → Bool)
    (now : String) : AggState → List AggMsg → AggState × List BatchEvent
  | st, [] => (st, [])
  | st, m :: rest =>
    match processMessage upload now st m with
    | .err st1 => (st1, [])
    | .ok st1 a e =>
      let (st2, evs) := processBatch upload now st1 rest
      (st2, ⟨m.msg_id, a, e⟩ :: evs)

/-- Bus ids acknowledged during a batch. -/
def ackedIds (evs : List BatchEvent) : List Nat :=
  (evs.filter (fun e => e.acked)).map (fun e => e.msg_id)

/-- Records whose upload was attempted during a batch. -/
def emittedRecords (evs : List BatchEvent) : List JobData :=
  evs.filterMap (fun e => e.emitted)

/-! Orchestrator exit codes: SentinelOrchestrator.run (orchestrator.py lines
321-363), monitor_system (lines 223-266) and the main block (lines 370-380).
Environment-dependent outcomes of the startup stages and of the monitor loop
are parameters. -/

/-- start_heartbeat (orchestrator.py lines 37-60) unconditionally starts a
daemon thread and returns True; the code after its first return is
unreachable, so heartbeat startup cannot fail. -/
def start_heartbeat : Bool := true

/-- Environment-dependent boolean outcomes of the fallible startup stages of
run(): cleanup_redis, start_workers, start_aggregator, start_monitor,
start_ingress. -/
structure StartupOutcomes where
  cleanupRedis : Bool
  workers : Bool
  aggregator : Bool
  monitor : Bool
  ingress : Bool
  deriving DecidableEq, Repr

/-- How the monitor loop of monitor_system ends once the system is running:
a KeyboardInterrupt (Ctrl+C), the Ingress child found dead, or some other
child found dead (which merely breaks the loop). -/
inductive MonitorOutcome where
  | interrupt
  | ingressDead
  | otherDead
  deriving DecidableEq, Repr

/-- How run() terminates: a sys.exit(code) raised inside it (SystemExit
propagates out of run), or a normal return carrying its boolean. -/
inductive RunResult where
  | sysExit (code : Nat)
  | returned (value : Bool)
  deriving DecidableEq, Repr

/-- SentinelOrchestrator.run (orchestrator.py lines 321-363): each startup
stage gates the next, and a failed stage returns False after stopping what
already started. With everything up, monitor_system runs: KeyboardInterrupt
leads to stop_all and sys.exit(0) (lines 263-266), a dead Ingress to stop_all
and sys.exit(1) (lines 242-245), any other dead child breaks the loop and
run() falls through stop_all to return True. -/
def orchestratorRun (o : StartupOutcomes) (mo : MonitorOutcome) : RunResult :=
  if !start_heartbeat then .returned false
  else if !o.cleanupRedis then .returned false
  else if !o.workers then .returned false
  else if !o.aggregator then .returned false
  else if !o.monitor then .returned false
  else if !o.ingress then .returned false
  else
    match mo with
    | .interrupt => .sysExit 0
    | .ingressDead => .sysExit 1
    | .otherDead => .returned true

/-- Process exit code of the main block (orchestrator.py lines 370-380):
orchestrator.run() is called with its return value discarded; a SystemExit
raised inside run passes the except Exception handler untouched and sets the
process exit code, while a normal return falls off the end of the script,
exiting with code 0 whatever boolean run returned. -/
def orchestratorMain (o : StartupOutcomes) (mo : MonitorOutcome) : Nat :=
  match orchestratorRun o mo with
  | .sysExit code => code
  | .returned _ => 0

/-! Concrete fixtures used by the theorems and their witnesses. -/

/-- Uploader stub returning a fixed boolean, modelling a stubbed
report_to_central. -/
def upAlways (b : Bool) : JobData → Option String → Option String → Bool :=
  fun _ _ _ => b

/-- A car Job message. -/
def carJobMsg : JobMsg :=
  { job_id := some "car_1_ab12cd34", vehicle_id := some "veh1",
    vehicle_type := some "car", frame_path := some "/f.jpg",
    plate_path := some "/p.jpg" }

/-- A motorcycle Job message. -/
def motoJobMsg : JobMsg :=
  { job_id := some "motorcycle_7_ab12cd34", vehicle_id := some "veh7",
    vehicle_type := some "motorcycle", frame_path := some "/f.jpg",
    plate_path := some "/p.jpg" }

/-- OCR Result message of the end-to-end motorcycle scenario. -/
def m1C5 : AggMsg :=
  { msg_id := 1, job_id := some "motorcycle_7_ab12cd34", worker := some "ocr",
    result := some "KA01AB1234", vehicle_id := some "veh7",
    frame_path := some "/f.jpg" }

/-- Violation Result message of the end-to-end motorcycle scenario. -/
def m2C5 : AggMsg :=
  { msg_id := 2, job_id := some "motorcycle_7_ab12cd34",
    worker := some "violation", result := some "2", vehicle_id := some "veh7",
    frame_path := some "/f.jpg" }

/-- The pending entry of the motorcycle job after both Results are merged. -/
def pjC5 : PendingJob :=
  { results := [(some "ocr", some "KA01AB1234"), (some "violation", some "2")],
    vehicle_id := some "veh7", frame_path := some "/f.jpg",
    plate_path := none, timestamp := some "t0" }

/-- The record the aggregator builds in the end-to-end motorcycle scenario. -/
def recC5 : JobData :=
  { vehicle_id := some "veh7", vehicle_type := "motorcycle",
    vehicle_number := some "KA01AB1234", color := "unknown",
    color_hex := "#000000", model := some "Unknown", violation_type := 2,
    timestamp := some "t0" }

/-- A duplicated OCR Result message for one bus job. -/
def mBusDup (i : Nat) : AggMsg :=
  { msg_id := i, job_id := some "bus_1_ab12cd34", worker := some "ocr",
    result := some "KA01AB1234", vehicle_id := some "veh1",
    frame_path := some "/f.jpg" }

/-- An OCR Result message for a bus job, exercising a single completion. -/
def mW6 : AggMsg :=
  { msg_id := 1, job_id := some "bus_1_x", worker := some "ocr",
    result := some "K", vehicle_id := some "v", frame_path := some "/f" }

/-- The pending entry after merging mW6 into the empty table. -/
def pjW6 : PendingJob :=
  { results := [(some "ocr", some "K")], vehicle_id := some "v",
    frame_path := some "/f", plate_path := none, timestamp := some "t0" }

/-- The record built from pjW6 for the bus job. -/
def recW6 : JobData :=
  { vehicle_id := some "v", vehicle_type := "bus",
    vehicle_number := some "K", color := "unknown", color_hex := "#000000",
    model := some "Unknown", violation_type := 0, timestamp := some "t0" }

/-- A table already holding an ocr result for one motorcycle job. -/
def c10State : AggState :=
  [("motorcycle_9_dead",
    { results := [(some "ocr", some "X")], vehicle_id := some "v9",
      frame_path := some "/f", plate_path := none, timestamp := some "t0" })]

/-- A violation Result whose payload oops is not an integer literal. -/
def c10Msg : AggMsg :=
  { msg_id := 5, job_id := some "motorcycle_9_dead",
    worker := some "violation", result := some "oops" }

/-- The motorcycle entry after merging c10Msg. -/
def c10Merged : PendingJob :=
  { results := [(some "ocr", some "X"), (some "violation", some "oops")],
    vehicle_id := some "v9", frame_path := some "/f", plate_path := none,
    timestamp := some "t0" }

/-- A car pending entry holding results for ocr and color only. -/
def carOcrColorEntry : PendingJob :=
  { results := [(some "ocr", some "KA01X"), (some "color", some "red|#aa0000")],
    vehicle_id := some "veh3", frame_path := some "/f.jpg",
    plate_path := none, timestamp := some "t0" }

/-- The same car entry after a logo result is merged in. -/
def carOcrColorLogoEntry : PendingJob :=
  { carOcrColorEntry with
    results := resSet carOcrColorEntry.results (some "logo") (some "Toyota") }

/-! Helper lemmas about the assoc-list operations and the split at the
first bar. -/

theorem splitBar_of_not_bar {l : List Char} (h : '|' ∉ l) : splitBar l = none := by
  induction l with
  | nil => rfl
  | cons c rest ih =>
    have hc : ¬ c = '|' := fun e => h (by simp [e])
    have hr : '|' ∉ rest := fun hm => h (List.mem_cons_of_mem _ hm)
    simp [splitBar, hc, ih hr]

theorem splitBar_append {a : List Char} (b : List Char) (h : '|' ∉ a) :
    splitBar (a ++ '|' :: b) = some (a, b) := by
  induction a with
  | nil => simp [splitBar]
  | cons c rest ih =>
    have hc : ¬ c = '|' := fun e => h (by simp [e])
    have hr : '|' ∉ rest := fun hm => h (List.mem_cons_of_mem _ hm)
    simp [splitBar, hc, ih hr]

theorem stGet?_stSet_self (st : AggState) (k : String) (pj : PendingJob) :
    stGet? (stSet st k pj) k = some pj := by
  induction st with
  | nil => simp [stSet, stGet?]
  | cons e rest ih =>
    obtain ⟨k', v⟩ := e
    by_cases h : k' = k
    · simp [stSet, stGet?, h]
    · simp [stSet, stGet?, h, ih]

theorem stGet?_stErase_self (st : AggState) (k : String) :
    stGet? (stErase st k) k = none := by
  induction st with
  | nil => rfl
  | cons e rest ih =>
    obtain ⟨k', v⟩ := e
    by_cases h : k' = k
    · simpa [stErase, List.filter_cons, h] using ih
    · simpa [stErase, List.filter_cons, h, stGet?] using ih

theorem resGet?_resSet_self (res : List (Option String × Option String))
    (k v : Option String) : resGet? (resSet res k v) k = some v := by
  induction res with
  | nil => simp [resSet, resGet?]
  | cons e rest ih =>
    obtain ⟨k', w⟩ := e
    by_cases h : k' = k
    · simp [resSet, resGet?, h]
    · simp [resSet, resGet?, h, ih]

/-- Unfolding of processMessage once the job_id field is known to hold j. -/
theorem processMessage_some
    (upload : JobData → Option String → Option String → Bool) (now : String)
    (st : AggState) (m : AggMsg) (j : String) (hj : m.job_id = some j) :
    processMessage upload now st m =
      (if j = "" then .ok st false none
       else
         let pj := mergedEntry now st j m
         let st1 := stSet st j pj
         let vt := leadingSegment j
         if completionFires pj (get_expected_workers vt) then
           match buildRecord vt pj with
           | .error _ => .err st1
           | .ok rec =>
             if upload rec pj.frame_path pj.plate_path then
               .ok (stErase st1 j) true (some rec)
             else
               .ok st1 false (some rec)
         else .ok st1 false none) := by
  unfold processMessage
  rw [hj]

/-! Claim theorems. -/

/-- C8: parse_color_result returns (Red, #FF0000) on Red|#FF0000,
(unknown, #000000) on unknown and (empty, #000000) on the empty string; in
general a string containing a bar is split at its first bar into the stripped
name and stripped hex, and a string without a bar becomes the whole stripped
string as name with hex #000000. -/
theorem parse_color_result_spec :
    (parse_color_result (some "Red|#FF0000") = .ok ("Red", "#FF0000") ∧
     parse_color_result (some "unknown") = .ok ("unknown", "#000000") ∧
     parse_color_result (some "") = .ok ("", "#000000")) ∧
    (∀ a b : List Char, '|' ∉ a →
      parse_color_result (some ⟨a ++ '|' :: b⟩) =
        .ok (⟨pystripList a⟩, ⟨pystripList b⟩)) ∧
    (∀ s : String, '|' ∉ s.toList →
      parse_color_result (some s) = .ok (pystrip s, "#000000")) := by
  refine ⟨⟨rfl, rfl, rfl⟩, ?_, ?_⟩
  · intro a b h
    simp [parse_color_result, String.toList, splitBar_append b h]
  · intro s h
    have h' : splitBar s.data = none := splitBar_of_not_bar h
    simp [parse_color_result, h', pystrip]

/-- Witness for C8: the two general clauses applied at a|b and at xy. -/
theorem parse_color_result_spec_witness :
    parse_color_result (some ⟨['a'] ++ '|' :: ['b']⟩) =
      .ok (⟨pystripList ['a']⟩, ⟨pystripList ['b']⟩) ∧
    parse_color_result (some "xy") = .ok (pystrip "xy", "#000000") :=
  ⟨parse_color_result_spec.2.1 ['a'] ['b'] (by decide),
   parse_color_result_spec.2.2 "xy" (by decide)⟩

/-- C9: for every vehicle type of the data model, the workers whose
should_worker_process accepts it are exactly the workers of
get_expected_workers, so the aggregator waits precisely for the workers that
process (rather than skip) the job. -/
theorem should_process_matches_expected_workers :
    ∀ vt ∈ ["car", "motorcycle", "bus", "truck", "auto"], ∀ w : String,
      should_worker_process w vt = true ↔ w ∈ get_expected_workers vt := by
  have key : ∀ vt : String,
      vt = "car" ∨ vt = "motorcycle" ∨ vt = "bus" ∨ vt = "truck" ∨ vt = "auto" →
      ∀ w : String,
        should_worker_process w vt = true ↔ w ∈ get_expected_workers vt := by
    intro vt hvt w
    by_cases h1 : w = "ocr"
    · subst h1; rcases hvt with rfl | rfl | rfl | rfl | rfl <;> decide
    by_cases h2 : w = "color"
    · subst h2; rcases hvt with rfl | rfl | rfl | rfl | rfl <;> decide
    by_cases h3 : w = "logo"
    · subst h3; rcases hvt with rfl | rfl | rfl | rfl | rfl <;> decide
    by_cases h4 : w = "violation"
    · subst h4; rcases hvt with rfl | rfl | rfl | rfl | rfl <;> decide
    rcases hvt with rfl | rfl | rfl | rfl | rfl <;>
      simp [should_worker_process, WORKER_TYPES, get_expected_workers,
        h1, h2, h3, h4]
  intro vt hvt w
  refine key vt ?_ w
  simpa using hvt

/-- Witness for C9: instantiated at the car type and the color worker. -/
theorem should_process_matches_expected_workers_witness :
    should_worker_process "color" "car" = true ↔
      "color" ∈ get_expected_workers "car" :=
  should_process_matches_expected_workers "car" (by decide) "color"

/-- C7: the completion test holds exactly when every expected worker occurs
among the accumulated result keys, where the expected set comes from the
vehicle type (the leading underscore-separated segment of the job_id):
car maps to ocr, color, logo; motorcycle to ocr, violation; every other type
to ocr alone — each non-empty and containing ocr. A car entry with results
for ocr and color only does not complete; adding logo completes it. -/
theorem expected_workers_completion_table :
    (∀ (pj : PendingJob) (vt : String),
      completionFires pj (get_expected_workers vt) = true ↔
        ∀ w ∈ get_expected_workers vt,
          ∃ v, resGet? pj.results (some w) = some v) ∧
    get_expected_workers "car" = ["ocr", "color", "logo"] ∧
    get_expected_workers "motorcycle" = ["ocr", "violation"] ∧
    (∀ vt : String, vt ≠ "car" → vt ≠ "motorcycle" →
      get_expected_workers vt = ["ocr"]) ∧
    (∀ vt : String,
      get_expected_workers vt ≠ [] ∧ "ocr" ∈ get_expected_workers vt) ∧
    (leadingSegment "car_3_deadbeef" = "car" ∧
     completionFires carOcrColorEntry (get_expected_workers "car") = false ∧
     completionFires carOcrColorLogoEntry (get_expected_workers "car") = true) := by
  refine ⟨?_, rfl, rfl, ?_, ?_, by decide⟩
  · intro pj vt
    simp [completionFires, List.all_eq_true, Option.isSome_iff_exists]
  · intro vt h1 h2
    simp [get_expected_workers, h1, h2]
  · intro vt
    unfold get_expected_workers
    split_ifs <;> simp

/-- Witness for C7: the catch-all row of the table applied at the bus type. -/
theorem expected_workers_completion_table_witness :
    get_expected_workers "bus" = ["ocr"] :=
  expected_workers_completion_table.2.2.2.1 "bus" (by decide) (by decide)

/-- C6: whenever the completion test fires and an upload is attempted, a
failed upload leaves the pending entry in the table and the triggering
message unacknowledged, while a successful upload acknowledges the message
and evicts the entry. -/
theorem aggregator_ack_evict_iff_upload_success
    (upload : JobData → Option String → Option String → Bool) (now : String)
    (st : AggState) (m : AggMsg) (j : String) (pj : PendingJob) (rec : JobData)
    (hj : m.job_id = some j) (hne : j ≠ "")
    (hpj : mergedEntry now st j m = pj)
    (hfire : completionFires pj (get_expected_workers (leadingSegment j)) = true)
    (hrec : buildRecord (leadingSegment j) pj = .ok rec) :
    (upload rec pj.frame_path pj.plate_path = false →
      processMessage upload now st m = .ok (stSet st j pj) false (some rec) ∧
      stGet? (stSet st j pj) j = some pj) ∧
    (upload rec pj.frame_path pj.plate_path = true →
      processMessage upload now st m =
        .ok (stErase (stSet st j pj) j) true (some rec) ∧
      stGet? (stErase (stSet st j pj) j) j = none) := by
  rw [processMessage_some upload now st m j hj, if_neg hne]
  simp only [hpj, hfire, if_true, hrec]
  constructor
  · intro hfail
    rw [hfail]
    exact ⟨rfl, stGet?_stSet_self st j pj⟩
  · intro hok
    rw [hok]
    exact ⟨rfl, stGet?_stErase_self (stSet st j pj) j⟩

/-- Witness for C6: the bus scenario mW6 with an always-succeeding uploader. -/
theorem aggregator_ack_evict_iff_upload_success_witness :
    (upAlways true recW6 pjW6.frame_path pjW6.plate_path = false →
      processMessage (upAlways true) "t0" [] mW6 =
        .ok (stSet [] "bus_1_x" pjW6) false (some recW6) ∧
      stGet? (stSet [] "bus_1_x" pjW6) "bus_1_x" = some pjW6) ∧
    (upAlways true recW6 pjW6.frame_path pjW6.plate_path = true →
      processMessage (upAlways true) "t0" [] mW6 =
        .ok (stErase (stSet [] "bus_1_x" pjW6) "bus_1_x") true (some recW6) ∧
      stGet? (stErase (stSet [] "bus_1_x" pjW6) "bus_1_x") "bus_1_x" = none) :=
  aggregator_ack_evict_iff_upload_success (upAlways true) "t0" [] mW6
    "bus_1_x" pjW6 recW6 rfl (by decide) (by decide) (by decide) rfl

/-- C10: when a message completes a job whose stored violation payload is not
a valid integer literal, int() raises inside the job_data construction: the
batch handler aborts via the outer except, so the triggering message is
neither acknowledged nor uploaded, the remaining messages of the batch are
not processed, and the already-mutated pending entry, merged result
included, is retained. -/
theorem invalid_violation_payload_aborts_batch
    (upload : JobData → Option String → Option String → Bool) (now : String)
    (st : AggState) (m : AggMsg) (rest : List AggMsg) (j : String)
    (pj : PendingJob) (v : String)
    (hj : m.job_id = some j) (hne : j ≠ "")
    (hpj : mergedEntry now st j m = pj)
    (hfire : completionFires pj (get_expected_workers (leadingSegment j)) = true)
    (hcolor : ∃ c, parse_color_result
      (resGetD pj.results "color" (some "unknown|#000000")) = .ok c)
    (hviol : resGet? pj.results (some "violation") = some (some v))
    (hbad : pyIntParse v = none) :
    processBatch upload now st (m :: rest) = (stSet st j pj, []) ∧
    stGet? (stSet st j pj) j = some pj ∧
    resGet? pj.results m.worker = some m.result := by
  obtain ⟨c, hc⟩ := hcolor
  have hbuild : buildRecord (leadingSegment j) pj = .error () := by
    obtain ⟨cn, ch⟩ := c
    rw [buildRecord, hc]
    simp [violationInt, hviol, hbad]
  have hstep : processMessage upload now st m = .err (stSet st j pj) := by
    rw [processMessage_some upload now st m j hj, if_neg hne]
    simp only [hpj, hfire, if_true, hbuild]
  refine ⟨?_, stGet?_stSet_self st j pj, ?_⟩
  · rw [processBatch, hstep]
  · rw [← hpj]
    exact resGet?_resSet_self _ m.worker m.result

/-- Witness for C10: a motorcycle job whose violation payload is oops. -/
theorem invalid_violation_payload_aborts_batch_witness :
    processBatch (upAlways true) "t0" c10State (c10Msg :: [mW6]) =
      (stSet c10State "motorcycle_9_dead" c10Merged, []) ∧
    stGet? (stSet c10State "motorcycle_9_dead" c10Merged) "motorcycle_9_dead" =
      some c10Merged ∧
    resGet? c10Merged.results c10Msg.worker = some c10Msg.result :=
  invalid_violation_payload_aborts_batch (upAlways true) "t0" c10State c10Msg
    [mW6] "motorcycle_9_dead" c10Merged "oops" rfl (by decide) (by decide)
    (by decide) ⟨("unknown", "#000000"), rfl⟩ (by decide) (by decide)

/-- C4, counterexample: the claim that at most one CompletedVehicleRecord is
ever emitted per job_id fails. The aggregator keeps no memory of completed
job_ids: with an always-succeeding uploader, two Result messages carrying the
same bus job_id each complete a fresh entry, so two records are uploaded and
both messages acked. -/
theorem aggregator_duplicate_bus_result_emits_twice :
    (mBusDup 1).job_id = (mBusDup 2).job_id ∧
    (emittedRecords
      (processBatch (upAlways true) "t0" [] [mBusDup 1, mBusDup 2]).2).length = 2 ∧
    ackedIds (processBatch (upAlways true) "t0" [] [mBusDup 1, mBusDup 2]).2 =
      [1, 2] :=
  ⟨rfl, rfl, rfl⟩

/-- C4, amended: a message step attempts at most one upload, and an emission
whose upload succeeds (the message was acked) evicts the job_id from the
pending table, while an emission whose upload fails (no ack) retains the
merged entry; uniqueness of the emitted record therefore holds per entry
lifetime, not per job_id over the whole run. -/
theorem aggregator_emission_evicts_entry
    (upload : JobData → Option String → Option String → Bool) (now : String)
    (st : AggState) (m : AggMsg) (j : String) (st1 : AggState) (a : Bool)
    (rec : JobData)
    (hj : m.job_id = some j)
    (hstep : processMessage upload now st m = .ok st1 a (some rec)) :
    (a = true → stGet? st1 j = none) ∧
    (a = false → stGet? st1 j = some (mergedEntry now st j m)) := by
  rw [processMessage_some upload now st m j hj] at hstep
  by_cases hne : j = ""
  · rw [if_pos hne] at hstep
    injection hstep with h1 h2 h3
    exact Option.noConfusion h3
  · rw [if_neg hne] at hstep
    simp only at hstep
    by_cases hfire : completionFires (mergedEntry now st j m)
        (get_expected_workers (leadingSegment j)) = true
    · rw [if_pos hfire] at hstep
      cases hbr : buildRecord (leadingSegment j) (mergedEntry now st j m) with
      | error e =>
        rw [hbr] at hstep
        exact StepRes.noConfusion hstep
      | ok rec' =>
        rw [hbr] at hstep
        simp only at hstep
        by_cases hu : upload rec' (mergedEntry now st j m).frame_path
            (mergedEntry now st j m).plate_path = true
        · rw [if_pos hu] at hstep
          injection hstep with h1 h2 h3
          subst h1
          constructor
          · intro _
            exact stGet?_stErase_self _ j
          · intro hfalse
            rw [← h2] at hfalse
            exact Bool.noConfusion hfalse
        · rw [if_neg hu] at hstep
          injection hstep with h1 h2 h3
          subst h1
          constructor
          · intro htrue
            rw [← h2] at htrue
            exact Bool.noConfusion htrue
          · intro _
            exact stGet?_stSet_self st j _
    · rw [if_neg hfire] at hstep
      injection hstep with h1 h2 h3
      exact Option.noConfusion h3

/-- Witness for the amended C4: the bus message mW6 completes, the upload
succeeds, and the entry is evicted. -/
theorem aggregator_emission_evicts_entry_witness :
    (true = true →
      stGet? (stErase (stSet [] "bus_1_x" pjW6) "bus_1_x") "bus_1_x" = none) ∧
    (true = false →
      stGet? (stErase (stSet [] "bus_1_x" pjW6) "bus_1_x") "bus_1_x" =
        some (mergedEntry "t0" [] "bus_1_x" mW6)) :=
  aggregator_emission_evicts_entry (upAlways true) "t0" [] mW6 "bus_1_x"
    (stErase (stSet [] "bus_1_x" pjW6) "bus_1_x") true recW6 rfl rfl

/-- C5, counterexample: in the end-to-end motorcycle scenario with an
uploader that always reports success, only the triggering violation message
(id 2) is acknowledged; the earlier ocr message (id 1) is never acked, so the
claim that both Result messages are acknowledged when the uploader returns
true fails. -/
theorem aggregator_motorcycle_first_message_never_acked :
    ackedIds (processBatch (upAlways true) "t0" [] [m1C5, m2C5]).2 = [2] ∧
    (1 : Nat) ∉ ackedIds (processBatch (upAlways true) "t0" [] [m1C5, m2C5]).2 :=
  ⟨rfl, by decide⟩

/-- C5, amended: processing the ocr and violation Results for
motorcycle_7_ab12cd34 builds and uploads the record with
vehicle_number KA01AB1234, violation_type 2, color unknown/#000000 and model
Unknown; the triggering violation message is acknowledged if and only if the
uploader returns true, while the earlier ocr message is never acknowledged
(the ok event for it carries acked false in both runs). -/
theorem aggregator_motorcycle_run_events :
    recC5 = { vehicle_id := some "veh7", vehicle_type := "motorcycle",
              vehicle_number := some "KA01AB1234", color := "unknown",
              color_hex := "#000000", model := some "Unknown",
              violation_type := 2, timestamp := some "t0" } ∧
    ((processBatch (upAlways true) "t0" [] [m1C5, m2C5]).2 =
       [⟨1, false, none⟩, ⟨2, true, some recC5⟩] ∧
     (processBatch (upAlways true) "t0" [] [m1C5, m2C5]).1 = []) ∧
    ((processBatch (upAlways false) "t0" [] [m1C5, m2C5]).2 =
       [⟨1, false, none⟩, ⟨2, false, some recC5⟩] ∧
     (processBatch (upAlways false) "t0" [] [m1C5, m2C5]).1 =
       [("motorcycle_7_ab12cd34", pjC5)]) :=
  ⟨rfl, ⟨rfl, rfl⟩, ⟨rfl, rfl⟩⟩

/-- C1: for a car job on which process_color returns a (name, hex) pair
without raising, the color worker does not publish an ok Result with payload
name|hex: building the success xadd dict raises NameError on the unbound
plate_path (color_worker.py line 252), so the except branch publishes an
error Result with payload unknown|#000000 and acks. -/
theorem color_worker_success_path_raises_nameerror :
    colorHandleMessage (.ok ("red", "#aa0000")) carJobMsg =
      [.publish { job_id := some "car_1_ab12cd34", vehicle_id := some "veh1",
                  worker := "color", result := some "unknown|#000000",
                  status := "error", error := some colorNameErrorMsg },
       .ack] :=
  rfl

/-- C2: on a processing exception, the ocr, color and violation workers
publish their error Result and ack, but the logo worker's error branch
(logo_worker.py lines 179-189) contains no xack: it only publishes the error
Result, leaving the job message unacknowledged, so the claim that every
worker acks regardless fails for logo. -/
theorem logo_worker_error_path_never_acks :
    logoHandleMessage (.error "boom") carJobMsg =
      [.publish { job_id := some "car_1_ab12cd34", vehicle_id := some "veh1",
                  worker := "logo", result := some "Unknown",
                  status := "error", error := some "boom",
                  logo_path := some "N/A" }] ∧
    WorkerEffect.ack ∉ logoHandleMessage (.error "boom") carJobMsg ∧
    WorkerEffect.ack ∈ ocrHandleMessage (.error "boom") carJobMsg ∧
    WorkerEffect.ack ∈ colorHandleMessage (.error "boom") carJobMsg ∧
    WorkerEffect.ack ∈ violationHandleMessage (.error "boom") motoJobMsg := by
  exact ⟨rfl, by decide, by decide, by decide, by decide⟩

/-- C3: the orchestrator process exits 0 on a clean interrupt and 1 on
Ingress death, but it also exits 0 on every startup-stage failure: run()
returns False and the main block discards that value, so no non-zero exit
happens — contradicting the claimed non-zero exit on startup failure. -/
theorem orchestrator_startup_failure_exits_zero :
    orchestratorMain ⟨false, true, true, true, true⟩ .interrupt = 0 ∧
    orchestratorMain ⟨true, false, true, true, true⟩ .interrupt = 0 ∧
    orchestratorMain ⟨true, true, true, true, false⟩ .interrupt = 0 ∧
    orchestratorMain ⟨true, true, true, true, true⟩ .interrupt = 0 ∧
    orchestratorMain ⟨true, true, true, true, true⟩ .ingressDead = 1 := by
  decide

end Sentinel
